import Mathlib

/-!
# Verification of the Adaptive Frame Sampler (`useSmartVideoStream`)

Shallow embedding of `src/client/src/hooks/useSmartVideoStream.ts`, the
client-side adaptive video frame sampler: change detection
(`calculateFrameDifference`), the per-tick decision procedure
(`captureAndAnalyzeFrame`), target-dimension scaling, and the session
lifecycle (`startStreaming` / `stopStreaming`).

Modelling conventions:
* JavaScript numbers are embedded as exact rationals (`ℚ`); pixel bytes as `ℕ`.
* The React `useState` setters and `useRef` cells become fields of an explicit
  `SamplerState` record; a tick is a pure function
  `SamplerState → SamplerState × Bool`, the Boolean recording whether the
  `onFrame` sink was invoked.
* The captured snapshot (`ctx.getImageData`) is an input of the tick supplied
  by the environment; the target-dimension computation (source lines 107-119)
  is factored into `computeTargetDims`.
* `Date.now()` is an input `now : ℚ` of the tick.
-/

namespace SmartVideoStream

/-- The source tag of a capture session (`"screen" | "camera"`). -/
inductive Source where
  | screen
  | camera
deriving DecidableEq, Repr

/-- A decoded video frame: a `width × height` grid of RGBA bytes, flattened
into `data` exactly as a DOM `ImageData` stores it (4 bytes per pixel,
row-major).  A genuine DOM `ImageData` satisfies
`data.length = 4 * width * height`; the embedding keeps the length a separate
fact so that the code's own loop bound (`i < current.length`) is modelled
verbatim.  Out-of-range reads return 0 via `getD` (unreachable on genuine
frames). -/
structure ImageData where
  width : ℕ
  height : ℕ
  data : List ℕ
deriving DecidableEq, Repr

/-- `SmartVideoStreamConfig` from the source (all numeric fields). -/
structure SamplerConfig where
  frameRate : ℚ
  quality : ℚ
  maxWidth : ℚ
  maxHeight : ℚ
  changeThreshold : ℚ
  minFrameInterval : ℚ
deriving DecidableEq, Repr

/-- `DEFAULT_CONFIG` from the source. -/
def DEFAULT_CONFIG : SamplerConfig :=
  { frameRate := 5
    quality := 0.6
    maxWidth := 1280
    maxHeight := 720
    changeThreshold := 0.05
    minFrameInterval := 500 }

/-- The mutable state of one sampler instance: the `useState` values
(`frameCount`, `framesSkipped`, `changeDetected`, `isStreaming`,
`currentSource`) and the `useRef` cells (`previousFrameRef`,
`lastFrameSentRef`, `intervalRef`, `videoRef`, `canvasRef`).  The three DOM
handles are abstracted to presence flags. -/
structure SamplerState where
  frameCount : ℕ
  framesSkipped : ℕ
  changeDetected : Bool
  previousFrame : Option ImageData
  lastFrameSent : ℚ
  isStreaming : Bool
  currentSource : Option Source
  intervalActive : Bool
  hasVideo : Bool
  hasCanvas : Bool
deriving Repr

/-- The initial hook state: counters zero, no baseline, no session. -/
def initialState : SamplerState :=
  { frameCount := 0
    framesSkipped := 0
    changeDetected := false
    previousFrame := none
    lastFrameSent := 0
    isStreaming := false
    currentSource := none
    intervalActive := false
    hasVideo := false
    hasCanvas := false }

/-- `Math.abs(a - b)` on two pixel bytes. -/
def byteDiff (a b : ℕ) : ℕ := ((a : ℤ) - (b : ℤ)).natAbs

/-- One iteration body of the sampling loop at data offset `i`: the pixel is
"changed" when any of the R, G, B channels differs by more than 20
(source lines 74-81). -/
def sampleStep (current previous : List ℕ) (i : ℕ) : Bool :=
  decide (20 < byteDiff (current.getD i 0) (previous.getD i 0))
    || decide (20 < byteDiff (current.getD (i + 1) 0) (previous.getD (i + 1) 0))
    || decide (20 < byteDiff (current.getD (i + 2) 0) (previous.getD (i + 2) 0))

/-- The source's `sampleRate = 4` ("check every 4th pixel for speed"). -/
def sampleRate : ℕ := 4

/-- `calculateFrameDifference` (source lines 60-88).  If the dimensions
differ, returns 1.  Otherwise counts the changed pixels among data offsets
`0, 16, 32, …  < current.length` (the loop `i += 4 * sampleRate`), and
divides by `totalPixels / sampleRate` — an exact rational division, as in
JavaScript. -/
def calculateFrameDifference (currentFrame previousFrame : ImageData) : ℚ :=
  if currentFrame.width ≠ previousFrame.width ∨
      currentFrame.height ≠ previousFrame.height then
    1
  else
    let current := currentFrame.data
    let previous := previousFrame.data
    let step := 4 * sampleRate
    let iterations := (current.length + step - 1) / step
    let differentPixels :=
      (List.range iterations).countP (fun k => sampleStep current previous (step * k))
    let totalPixels := currentFrame.width * currentFrame.height
    (differentPixels : ℚ) / ((totalPixels : ℚ) / (sampleRate : ℚ))

/-- The scaled target dimensions (source lines 107-119): the width constraint
is applied first, then the height constraint on the already-width-scaled
dimensions. -/
def computeTargetDims (cfg : SamplerConfig) (videoWidth videoHeight : ℚ) : ℚ × ℚ :=
  let afterWidth : ℚ × ℚ :=
    if videoWidth > cfg.maxWidth then
      (cfg.maxWidth, videoHeight * cfg.maxWidth / videoWidth)
    else
      (videoWidth, videoHeight)
  if afterWidth.2 > cfg.maxHeight then
    (afterWidth.1 * cfg.maxHeight / afterWidth.2, cfg.maxHeight)
  else
    afterWidth

/-- The environment of one evaluation tick:
`hasEnoughData` models `video.readyState === video.HAVE_ENOUGH_DATA`,
`ctxAvailable` models `canvas.getContext` returning non-null,
`currentFrame` is the snapshot read back by `ctx.getImageData` at the target
dimensions, and `now` is `Date.now()`. -/
structure TickInput where
  hasEnoughData : Bool
  ctxAvailable : Bool
  currentFrame : ImageData
  now : ℚ
deriving Repr

/-- `captureAndAnalyzeFrame` (source lines 93-166) as a pure transition.
Returns the new state and whether `onFrame` was invoked (a send).
Branches in source order: not-enough-data guard, context guard, first-frame
send, `minFrameInterval` rate limiter, change detection. -/
def captureAndAnalyzeFrame (cfg : SamplerConfig) (inp : TickInput)
    (s : SamplerState) : SamplerState × Bool :=
  if inp.hasEnoughData = false then
    (s, false)
  else if inp.ctxAvailable = false then
    (s, false)
  else
    let timeSinceLastFrame := inp.now - s.lastFrameSent
    match s.previousFrame with
    | none =>
        -- "Always send first frame": shouldSend = true
        ({ s with
            frameCount := s.frameCount + 1
            lastFrameSent := inp.now
            previousFrame := some inp.currentFrame }, true)
    | some prev =>
        if timeSinceLastFrame < cfg.minFrameInterval then
          -- hard rate limiter: skip without running change detection
          ({ s with
              framesSkipped := s.framesSkipped + 1
              changeDetected := false }, false)
        else
          let difference := calculateFrameDifference inp.currentFrame prev
          if cfg.changeThreshold ≤ difference then
            ({ s with
                changeDetected := true
                frameCount := s.frameCount + 1
                lastFrameSent := inp.now
                previousFrame := some inp.currentFrame }, true)
          else
            ({ s with
                changeDetected := false
                framesSkipped := s.framesSkipped + 1 }, false)

/-- `stopStreaming` (source lines 235-266): clears the interval, drops the
video and canvas handles, clears the baseline snapshot, resets the last-sent
timestamp, and clears the streaming flags.  Note that `frameCount` and
`framesSkipped` are only read (for the efficiency log), never reset here. -/
def stopStreaming (s : SamplerState) : SamplerState :=
  { s with
      intervalActive := false
      hasVideo := false
      hasCanvas := false
      previousFrame := none
      lastFrameSent := 0
      isStreaming := false
      currentSource := none
      changeDetected := false }

/-- `startStreaming` (source lines 180-230): stops any existing session,
creates fresh video and canvas surfaces, resets the counters and the
baseline, and (once metadata is loaded) installs the recurring interval and
marks the session streaming.  The embedding folds the `onloadedmetadata`
continuation into the call, since no tick can run before it in the
single-threaded event model. -/
def startStreaming (src : Source) (s : SamplerState) : SamplerState :=
  let stopped := stopStreaming s
  { stopped with
      hasVideo := true
      hasCanvas := true
      frameCount := 0
      framesSkipped := 0
      previousFrame := none
      lastFrameSent := 0
      intervalActive := true
      isStreaming := true
      currentSource := some src }

/-- The platform timer firing one queued interval task.  Per the HTML
standard, the task queued by `setInterval` first checks that its handle is
still in the map of active timers and aborts otherwise; `clearInterval`
removes the handle.  Hence a fire — even one already queued when
`clearInterval` ran — invokes the callback only while the interval is
active. -/
def fireTick (cfg : SamplerConfig) (inp : TickInput) (s : SamplerState) :
    SamplerState × Bool :=
  if s.intervalActive then captureAndAnalyzeFrame cfg inp s else (s, false)

/-- Running a list of evaluation ticks in order. -/
def runTicks (cfg : SamplerConfig) (inps : List TickInput) (s : SamplerState) :
    SamplerState :=
  inps.foldl (fun s inp => (captureAndAnalyzeFrame cfg inp s).1) s

/-- A tick reaches the comparison stage when the video surface has enough
data and a drawing context is available. -/
def reachesComparison (inp : TickInput) : Bool :=
  inp.hasEnoughData && inp.ctxAvailable

/-- The number of ticks of a run that reach the comparison stage. -/
def comparisonTicks (inps : List TickInput) : ℕ :=
  inps.countP reachesComparison

/-! ### Concrete fixtures used by witnesses and counterexamples -/

/-- A 1×1 all-black RGBA frame. -/
def blackPixel : ImageData := ⟨1, 1, [0, 0, 0, 255]⟩

/-- A 1×1 all-white RGBA frame. -/
def whitePixel : ImageData := ⟨1, 1, [255, 255, 255, 255]⟩

/-- A 2×2 all-black RGBA frame. -/
def blackFrame2x2 : ImageData :=
  ⟨2, 2, [0, 0, 0, 255, 0, 0, 0, 255, 0, 0, 0, 255, 0, 0, 0, 255]⟩

/-- A 2×2 all-white RGBA frame. -/
def whiteFrame2x2 : ImageData :=
  ⟨2, 2, [255, 255, 255, 255, 255, 255, 255, 255, 255, 255, 255, 255,
          255, 255, 255, 255]⟩

/-- A mid-session state: one frame sent at time 0, change flag set, session
active with a screen source. -/
def midSessionState : SamplerState :=
  { frameCount := 1
    framesSkipped := 0
    changeDetected := true
    previousFrame := some blackPixel
    lastFrameSent := 0
    isStreaming := true
    currentSource := some Source.screen
    intervalActive := true
    hasVideo := true
    hasCanvas := true }

end SmartVideoStream

namespace SmartVideoStream

/-! ### Helper lemmas -/

/-- A comparison-stage tick past the rate floor whose computed difference
reaches the change threshold takes the send branch: `onFrame` is invoked,
`frameCount` is incremented, the baseline and send timestamp are updated,
and the change flag is set. -/
theorem captureAndAnalyzeFrame_send (cfg : SamplerConfig) (cur : ImageData)
    (now : ℚ) (s : SamplerState) (prev : ImageData)
    (hprev : s.previousFrame = some prev)
    (ht : cfg.minFrameInterval ≤ now - s.lastFrameSent)
    (hd : cfg.changeThreshold ≤ calculateFrameDifference cur prev) :
    captureAndAnalyzeFrame cfg ⟨true, true, cur, now⟩ s =
      ({ s with
          changeDetected := true
          frameCount := s.frameCount + 1
          lastFrameSent := now
          previousFrame := some cur }, true) := by
  simp [captureAndAnalyzeFrame, hprev, not_lt.mpr ht, hd]

/-- Every tick changes `frameCount + framesSkipped` by exactly 1 when it
reaches the comparison stage, and by 0 otherwise — in particular the very
first send is itself counted in `frameCount`. -/
theorem counters_step (cfg : SamplerConfig) (inp : TickInput) (s : SamplerState) :
    (captureAndAnalyzeFrame cfg inp s).1.frameCount +
      (captureAndAnalyzeFrame cfg inp s).1.framesSkipped =
      s.frameCount + s.framesSkipped +
        (if reachesComparison inp then 1 else 0) := by
  obtain ⟨hE, hC, cur, now⟩ := inp
  cases hE <;> cases hC <;>
    cases hp : s.previousFrame <;>
      simp [captureAndAnalyzeFrame, reachesComparison, hp] <;>
        first
          | omega
          | (split_ifs <;> simp <;> omega)

/-- Accumulated over any run, `frameCount + framesSkipped` grows by exactly
the number of ticks that reach the comparison stage. -/
theorem runTicks_counters (cfg : SamplerConfig) (inps : List TickInput) :
    ∀ s : SamplerState,
      (runTicks cfg inps s).frameCount + (runTicks cfg inps s).framesSkipped =
        s.frameCount + s.framesSkipped + comparisonTicks inps := by
  induction inps with
  | nil => intro s; simp [runTicks, comparisonTicks]
  | cons inp rest ih =>
      intro s
      have hstep := counters_step cfg inp s
      have htail := ih (captureAndAnalyzeFrame cfg inp s).1
      simp only [runTicks, List.foldl_cons] at htail ⊢
      simp only [comparisonTicks, List.countP_cons] at htail ⊢
      split_ifs at hstep ⊢ <;> omega

end SmartVideoStream

namespace SmartVideoStream

/-! ### C2 — what `stopStreaming` does (corrected) -/

/-- C2 (counterexample): the claim says `stop()` resets `framesSent` and
`framesSkipped` to zero.  On the state of a live session that has sent one
frame, `stopStreaming` leaves `frameCount = 1`: the counters are not reset. -/
theorem C2_counterexample :
    midSessionState.intervalActive = true ∧
    (stopStreaming midSessionState).frameCount = 1 ∧
    (stopStreaming midSessionState).framesSkipped = 0 ∧
    (1 : ℕ) ≠ 0 :=
  ⟨rfl, rfl, rfl, by decide⟩

/-- C2 (amended): `stop()` cancels the recurring evaluation timer, clears
the baseline snapshot, resets the last-sent timestamp, and marks the session
inactive — but it leaves `framesSent` and `framesSkipped` unchanged (they
are only reset by the next `start()`).  Calling it again on the stopped
state is a no-op (idempotence), so calling it with no active session changes
nothing. -/
theorem C2_stopStreaming_behavior (s : SamplerState) :
    (stopStreaming s).intervalActive = false ∧
    (stopStreaming s).hasVideo = false ∧
    (stopStreaming s).hasCanvas = false ∧
    (stopStreaming s).previousFrame = none ∧
    (stopStreaming s).lastFrameSent = 0 ∧
    (stopStreaming s).isStreaming = false ∧
    (stopStreaming s).currentSource = none ∧
    (stopStreaming s).frameCount = s.frameCount ∧
    (stopStreaming s).framesSkipped = s.framesSkipped ∧
    stopStreaming (stopStreaming s) = stopStreaming s :=
  ⟨rfl, rfl, rfl, rfl, rfl, rfl, rfl, rfl, rfl, rfl⟩

/-! ### C3 — the `minFrameInterval` hard rate limiter -/

/-- C3: on a tick that reaches the comparison stage, when a baseline exists
and the elapsed time since the last sent frame is strictly below
`minFrameInterval`, the tick only increments `framesSkipped` and forces the
change flag to `false`: no frame is sent, nothing else changes, and the
result does not depend on the captured pixel data at all (change detection
is bypassed — the right-hand side never mentions `cur`). -/
theorem C3_rate_limited_tick_skips (cfg : SamplerConfig) (cur : ImageData)
    (now : ℚ) (s : SamplerState) (prev : ImageData)
    (hprev : s.previousFrame = some prev)
    (ht : now - s.lastFrameSent < cfg.minFrameInterval) :
    captureAndAnalyzeFrame cfg ⟨true, true, cur, now⟩ s =
      ({ s with
          framesSkipped := s.framesSkipped + 1
          changeDetected := false }, false) := by
  simp [captureAndAnalyzeFrame, hprev, ht]

/-- C3 witness: a session that last sent at time 0 is rate-limited at time
100 under the default 500 ms floor, whatever the new frame looks like. -/
theorem C3_rate_limited_tick_skips_witness :
    midSessionState.previousFrame = some blackPixel ∧
    (100 : ℚ) - midSessionState.lastFrameSent < DEFAULT_CONFIG.minFrameInterval ∧
    captureAndAnalyzeFrame DEFAULT_CONFIG ⟨true, true, whitePixel, 100⟩ midSessionState =
      ({ midSessionState with
          framesSkipped := midSessionState.framesSkipped + 1
          changeDetected := false }, false) :=
  ⟨rfl, by norm_num [midSessionState, DEFAULT_CONFIG],
    C3_rate_limited_tick_skips DEFAULT_CONFIG whitePixel 100 midSessionState blackPixel
      rfl (by norm_num [midSessionState, DEFAULT_CONFIG])⟩

/-! ### C4 — the first comparison-stage evaluation always sends -/

/-- C4: on the first tick that reaches the comparison stage (no baseline
snapshot yet), the frame is sent unconditionally: the equation holds for
every configuration, so in particular independently of `changeThreshold`
and `minFrameInterval`. -/
theorem C4_first_frame_always_sent (cfg : SamplerConfig) (cur : ImageData)
    (now : ℚ) (s : SamplerState) (hprev : s.previousFrame = none) :
    captureAndAnalyzeFrame cfg ⟨true, true, cur, now⟩ s =
      ({ s with
          frameCount := s.frameCount + 1
          lastFrameSent := now
          previousFrame := some cur }, true) := by
  simp [captureAndAnalyzeFrame, hprev]

/-- C4 witness: the fresh hook state has no baseline, and its first
comparison-stage tick sends — here under a configuration whose threshold
(2) could never be met and whose rate floor is enormous, showing the send
is independent of both. -/
theorem C4_first_frame_always_sent_witness :
    initialState.previousFrame = none ∧
    captureAndAnalyzeFrame
        { DEFAULT_CONFIG with changeThreshold := 2, minFrameInterval := 1000000 }
        ⟨true, true, blackPixel, 0⟩ initialState =
      ({ initialState with
          frameCount := initialState.frameCount + 1
          lastFrameSent := 0
          previousFrame := some blackPixel }, true) :=
  ⟨rfl, C4_first_frame_always_sent _ blackPixel 0 initialState rfl⟩

/-! ### C8 — a pending timer fire after `stop()` is inert -/

/-- C8: after `stopStreaming`, a timer fire — including one already queued
when `clearInterval` ran, which per the HTML timer model aborts once its
handle has left the map of active timers (`fireTick`'s guard) — invokes no
sink and mutates no state: the session state is returned unchanged and the
send flag is `false`. -/
theorem C8_stop_prevents_pending_tick (cfg : SamplerConfig) (inp : TickInput)
    (s : SamplerState) :
    fireTick cfg inp (stopStreaming s) = (stopStreaming s, false) := by
  simp [fireTick, stopStreaming]

/-! ### C9 — transient capture failures change nothing -/

/-- C9: a tick on which the video surface lacks buffered data, or on which
no drawing context is available, returns the state unchanged and sends
nothing — in particular `frameCount`, `framesSkipped`, the baseline and the
last-sent timestamp are untouched, and the function is total (no error). -/
theorem C9_transient_failure_no_state_change (cfg : SamplerConfig)
    (inp : TickInput) (s : SamplerState)
    (h : inp.hasEnoughData = false ∨ inp.ctxAvailable = false) :
    captureAndAnalyzeFrame cfg inp s = (s, false) := by
  rcases h with h | h
  · simp [captureAndAnalyzeFrame, h]
  · cases hE : inp.hasEnoughData <;> simp [captureAndAnalyzeFrame, hE, h]

/-- C9 witness: a not-ready tick on a live session leaves it untouched. -/
theorem C9_transient_failure_no_state_change_witness :
    ((⟨false, true, whitePixel, 1000⟩ : TickInput).hasEnoughData = false ∨
      (⟨false, true, whitePixel, 1000⟩ : TickInput).ctxAvailable = false) ∧
    captureAndAnalyzeFrame DEFAULT_CONFIG ⟨false, true, whitePixel, 1000⟩
        midSessionState = (midSessionState, false) :=
  ⟨Or.inl rfl,
    C9_transient_failure_no_state_change DEFAULT_CONFIG _ midSessionState (Or.inl rfl)⟩

/-! ### C10 — `startStreaming` gives the new session a clean slate -/

/-- C10: `startStreaming` (which installs the recurring timer only after
resetting state, so no tick of the new session can observe older values)
leaves both counters at zero, no baseline snapshot, a zero last-sent
timestamp, and the session active on the requested source. -/
theorem C10_start_resets_session_state (src : Source) (s : SamplerState) :
    (startStreaming src s).frameCount = 0 ∧
    (startStreaming src s).framesSkipped = 0 ∧
    (startStreaming src s).previousFrame = none ∧
    (startStreaming src s).lastFrameSent = 0 ∧
    (startStreaming src s).isStreaming = true ∧
    (startStreaming src s).currentSource = some src ∧
    (startStreaming src s).intervalActive = true :=
  ⟨rfl, rfl, rfl, rfl, rfl, rfl, rfl⟩

end SmartVideoStream

namespace SmartVideoStream

/-! ### C1 — the counter invariant over a run of ticks (corrected) -/

/-- C1 (counterexample): the claim predicts that after a run of ticks the
sum `frameCount + framesSkipped` equals the number of comparison-stage
ticks *after the first*.  Running a fresh session through exactly one
comparison-stage tick, the code leaves the sum at 1 (the first, unconditional
send is itself counted in `frameCount`), while the claim predicts
`1 - 1 = 0`. -/
theorem C1_counterexample :
    (runTicks DEFAULT_CONFIG [⟨true, true, blackPixel, 0⟩] initialState).frameCount +
      (runTicks DEFAULT_CONFIG [⟨true, true, blackPixel, 0⟩] initialState).framesSkipped
      = 1 ∧
    comparisonTicks [⟨true, true, blackPixel, 0⟩] - 1 = 0 ∧
    (1 : ℕ) ≠ 0 := by
  refine ⟨?_, ?_, by decide⟩
  · norm_num [runTicks, captureAndAnalyzeFrame, initialState]
  · decide

/-- C1 (amended): starting from a session with both counters at zero, after
any sequence of evaluation ticks the sum `frameCount + framesSkipped`
equals the number of ticks that reached the comparison stage *including*
the first — the unconditional first send is counted in `frameCount`. -/
theorem C1_frames_counter_invariant (cfg : SamplerConfig)
    (inps : List TickInput) (s : SamplerState)
    (h1 : s.frameCount = 0) (h2 : s.framesSkipped = 0) :
    (runTicks cfg inps s).frameCount + (runTicks cfg inps s).framesSkipped =
      comparisonTicks inps := by
  have h := runTicks_counters cfg inps s
  omega

/-- C1 witness: a fresh session run through three ticks — a send, a
not-ready tick, and a rate-limited skip — has counter sum 2, the number of
comparison-stage ticks. -/
theorem C1_frames_counter_invariant_witness :
    initialState.frameCount = 0 ∧ initialState.framesSkipped = 0 ∧
    (runTicks DEFAULT_CONFIG
        [⟨true, true, blackPixel, 0⟩, ⟨false, true, whitePixel, 100⟩,
          ⟨true, true, whitePixel, 200⟩] initialState).frameCount +
      (runTicks DEFAULT_CONFIG
        [⟨true, true, blackPixel, 0⟩, ⟨false, true, whitePixel, 100⟩,
          ⟨true, true, whitePixel, 200⟩] initialState).framesSkipped =
      comparisonTicks
        [⟨true, true, blackPixel, 0⟩, ⟨false, true, whitePixel, 100⟩,
          ⟨true, true, whitePixel, 200⟩] :=
  ⟨rfl, rfl, C1_frames_counter_invariant DEFAULT_CONFIG _ initialState rfl rfl⟩

end SmartVideoStream

namespace SmartVideoStream

/-! ### C6 — target-dimension scaling -/

/-- C6: for any source dimensions and any positive `maxWidth`/`maxHeight`,
the target dimensions — width constraint applied first, then the height
constraint on the already-width-scaled pair, exactly as `computeTargetDims`
is defined — never exceed `maxWidth` × `maxHeight`, stay nonnegative, and
preserve the source aspect ratio exactly (`w' * h = h' * w`); the final
integer canvas size only rounds these values down, staying within the
bounds and within one pixel of the exact ratio. -/
theorem C6_target_dims_bounded_aspect (cfg : SamplerConfig) (w h : ℚ)
    (hw : 0 ≤ w) (hh : 0 ≤ h) (hW : 0 < cfg.maxWidth) (hH : 0 < cfg.maxHeight) :
    (computeTargetDims cfg w h).1 ≤ cfg.maxWidth ∧
    (computeTargetDims cfg w h).2 ≤ cfg.maxHeight ∧
    (computeTargetDims cfg w h).1 * h = (computeTargetDims cfg w h).2 * w ∧
    0 ≤ (computeTargetDims cfg w h).1 ∧ 0 ≤ (computeTargetDims cfg w h).2 := by
  simp only [computeTargetDims]
  split_ifs with h1 h2 h3
  · dsimp only at h2 ⊢
    have hw0 : 0 < w := lt_trans hW h1
    have hw0' : w ≠ 0 := ne_of_gt hw0
    have hd : 0 < h * cfg.maxWidth / w := lt_trans hH h2
    have hh0 : h ≠ 0 := by
      intro h0
      rw [h0, zero_mul, zero_div] at h2
      exact absurd h2 (not_lt.mpr hH.le)
    refine ⟨?_, le_refl _, ?_, ?_, hH.le⟩
    · rw [div_le_iff₀ hd]
      exact mul_le_mul_of_nonneg_left h2.le hW.le
    · field_simp
      ring
    · exact div_nonneg (mul_nonneg hW.le hH.le) hd.le
  · dsimp only at h2 ⊢
    have hw0 : 0 < w := lt_trans hW h1
    have hw0' : w ≠ 0 := ne_of_gt hw0
    refine ⟨le_refl _, not_lt.mp h2, ?_, hW.le, ?_⟩
    · field_simp
      ring
    · exact div_nonneg (mul_nonneg hh hW.le) hw0.le
  · dsimp only at h3 ⊢
    have hh0 : 0 < h := lt_trans hH h3
    have hh0' : h ≠ 0 := ne_of_gt hh0
    refine ⟨?_, le_refl _, ?_, ?_, hH.le⟩
    · refine le_trans ?_ (not_lt.mp h1)
      rw [div_le_iff₀ hh0]
      exact mul_le_mul_of_nonneg_left h3.le hw
    · field_simp
      ring
    · exact div_nonneg (mul_nonneg hw hH.le) hh0.le
  · dsimp only at h3 ⊢
    exact ⟨not_lt.mp h1, not_lt.mp h3, mul_comm w h, hw, hh⟩

/-- C6 witness: a 1920×1080 source under the default 1280×720 bounds obeys
the bounds and keeps the 16:9 aspect ratio. -/
theorem C6_target_dims_bounded_aspect_witness :
    (0 : ℚ) ≤ 1920 ∧ (0 : ℚ) ≤ 1080 ∧
    (0 : ℚ) < DEFAULT_CONFIG.maxWidth ∧ (0 : ℚ) < DEFAULT_CONFIG.maxHeight ∧
    ((computeTargetDims DEFAULT_CONFIG 1920 1080).1 ≤ DEFAULT_CONFIG.maxWidth ∧
     (computeTargetDims DEFAULT_CONFIG 1920 1080).2 ≤ DEFAULT_CONFIG.maxHeight ∧
     (computeTargetDims DEFAULT_CONFIG 1920 1080).1 * 1080 =
       (computeTargetDims DEFAULT_CONFIG 1920 1080).2 * 1920 ∧
     0 ≤ (computeTargetDims DEFAULT_CONFIG 1920 1080).1 ∧
     0 ≤ (computeTargetDims DEFAULT_CONFIG 1920 1080).2) :=
  ⟨by norm_num, by norm_num,
    by norm_num [DEFAULT_CONFIG], by norm_num [DEFAULT_CONFIG],
    C6_target_dims_bounded_aspect DEFAULT_CONFIG 1920 1080
      (by norm_num) (by norm_num)
      (by norm_num [DEFAULT_CONFIG]) (by norm_num [DEFAULT_CONFIG])⟩

end SmartVideoStream

namespace SmartVideoStream

/-! ### C7 — dimension mismatch forces a send -/

/-- C7: when the current and baseline snapshots differ in width or height,
`calculateFrameDifference` returns the maximal value 1 (a total function —
the mismatch is never an error), so past the rate floor and with
`changeThreshold ≤ 1` the tick takes the send branch. -/
theorem C7_dimension_mismatch_forces_send (cur prev : ImageData)
    (cfg : SamplerConfig) (s : SamplerState) (now : ℚ)
    (hdim : cur.width ≠ prev.width ∨ cur.height ≠ prev.height)
    (hprev : s.previousFrame = some prev)
    (ht : cfg.minFrameInterval ≤ now - s.lastFrameSent)
    (hthr : cfg.changeThreshold ≤ 1) :
    calculateFrameDifference cur prev = 1 ∧
    captureAndAnalyzeFrame cfg ⟨true, true, cur, now⟩ s =
      ({ s with
          changeDetected := true
          frameCount := s.frameCount + 1
          lastFrameSent := now
          previousFrame := some cur }, true) := by
  have hD : calculateFrameDifference cur prev = 1 := by
    unfold calculateFrameDifference
    rw [if_pos hdim]
  exact ⟨hD, captureAndAnalyzeFrame_send cfg cur now s prev hprev ht
    (by rw [hD]; exact hthr)⟩

/-- C7 witness: a 1×1 snapshot against a 2×2 baseline, at the default
threshold and exactly at the 500 ms rate floor, yields difference 1 and a
send. -/
theorem C7_dimension_mismatch_forces_send_witness :
    (whitePixel.width ≠ blackFrame2x2.width ∨
      whitePixel.height ≠ blackFrame2x2.height) ∧
    ({ midSessionState with previousFrame := some blackFrame2x2 }
        : SamplerState).previousFrame = some blackFrame2x2 ∧
    DEFAULT_CONFIG.minFrameInterval ≤ (500 : ℚ) -
      ({ midSessionState with previousFrame := some blackFrame2x2 }
        : SamplerState).lastFrameSent ∧
    DEFAULT_CONFIG.changeThreshold ≤ 1 ∧
    (calculateFrameDifference whitePixel blackFrame2x2 = 1 ∧
      captureAndAnalyzeFrame DEFAULT_CONFIG ⟨true, true, whitePixel, 500⟩
          { midSessionState with previousFrame := some blackFrame2x2 } =
        ({ ({ midSessionState with previousFrame := some blackFrame2x2 }
              : SamplerState) with
            changeDetected := true
            frameCount := ({ midSessionState with
              previousFrame := some blackFrame2x2 } : SamplerState).frameCount + 1
            lastFrameSent := 500
            previousFrame := some whitePixel }, true)) :=
  ⟨Or.inl (by decide), rfl,
    by norm_num [midSessionState, DEFAULT_CONFIG],
    by norm_num [DEFAULT_CONFIG],
    C7_dimension_mismatch_forces_send whitePixel blackFrame2x2 DEFAULT_CONFIG
      { midSessionState with previousFrame := some blackFrame2x2 } 500
      (Or.inl (by decide)) rfl
      (by norm_num [midSessionState, DEFAULT_CONFIG])
      (by norm_num [DEFAULT_CONFIG])⟩

end SmartVideoStream

namespace SmartVideoStream

/-! ### C5 — all sampled pixels changed (corrected) -/

/-- C5 (counterexample): the claim says the change fraction is *exactly*
1.0 whenever every sampled pixel differs beyond the intensity delta.  On
equal-dimension 1×1 snapshots whose only (sampled) pixel differs by 255 in
every channel, the code computes `1 / (1/4) = 4`, not 1: the loop visits
`⌈totalPixels/4⌉` pixels but divides by the exact `totalPixels/4`. -/
theorem C5_counterexample :
    whitePixel.width = blackPixel.width ∧
    whitePixel.height = blackPixel.height ∧
    whitePixel.data.length = 4 * (whitePixel.width * whitePixel.height) ∧
    (∀ k ∈ List.range
        ((whitePixel.data.length + 4 * sampleRate - 1) / (4 * sampleRate)),
      sampleStep whitePixel.data blackPixel.data (4 * sampleRate * k) = true) ∧
    calculateFrameDifference whitePixel blackPixel = 4 ∧
    (4 : ℚ) ≠ 1 := by
  refine ⟨rfl, rfl, rfl, by decide, ?_, by norm_num⟩
  norm_num [calculateFrameDifference, whitePixel, blackPixel, sampleRate,
    List.range, List.range.loop, List.countP, List.countP.go, sampleStep, byteDiff]

/-- C5 (amended): on equal-dimension snapshots of positive pixel count with
genuine RGBA data, if every sampled pixel differs beyond the 20/255 delta
in some channel then the change fraction is at least 1.0 — exactly 1.0 when
the pixel count is divisible by the sampling stride 4 — and, past the
`minFrameInterval` rate floor and with `changeThreshold ≤ 1`, the frame is
sent. -/
theorem C5_all_pixels_changed_sends (cur prev : ImageData)
    (cfg : SamplerConfig) (s : SamplerState) (now : ℚ)
    (hwidth : cur.width = prev.width) (hheight : cur.height = prev.height)
    (hlen : cur.data.length = 4 * (cur.width * cur.height))
    (hpos : 0 < cur.width * cur.height)
    (hall : ∀ k ∈ List.range
        ((cur.data.length + 4 * sampleRate - 1) / (4 * sampleRate)),
      sampleStep cur.data prev.data (4 * sampleRate * k) = true)
    (hprev : s.previousFrame = some prev)
    (ht : cfg.minFrameInterval ≤ now - s.lastFrameSent)
    (hthr : cfg.changeThreshold ≤ 1) :
    1 ≤ calculateFrameDifference cur prev ∧
    (4 ∣ cur.width * cur.height → calculateFrameDifference cur prev = 1) ∧
    captureAndAnalyzeFrame cfg ⟨true, true, cur, now⟩ s =
      ({ s with
          changeDetected := true
          frameCount := s.frameCount + 1
          lastFrameSent := now
          previousFrame := some cur }, true) := by
  have hne : ¬ (cur.width ≠ prev.width ∨ cur.height ≠ prev.height) := by
    push_neg
    exact ⟨hwidth, hheight⟩
  have hcount : (List.range
        ((cur.data.length + 4 * sampleRate - 1) / (4 * sampleRate))).countP
      (fun k => sampleStep cur.data prev.data ((4 * sampleRate) * k)) =
      (cur.data.length + 4 * sampleRate - 1) / (4 * sampleRate) := by
    rw [List.countP_eq_length.mpr hall, List.length_range]
  have hD : calculateFrameDifference cur prev =
      (((cur.data.length + 4 * sampleRate - 1) / (4 * sampleRate) : ℕ) : ℚ) /
        (((cur.width * cur.height : ℕ) : ℚ) / ((sampleRate : ℕ) : ℚ)) := by
    simp only [calculateFrameDifference]
    rw [if_neg hne, hcount]
  rw [hlen] at hD
  have h15 : 4 * (cur.width * cur.height) + 4 * sampleRate - 1 =
      4 * (cur.width * cur.height) + 15 := by
    simp [sampleRate]
  rw [h15] at hD
  set T := cur.width * cur.height with hTdef
  have hsr : ((sampleRate : ℕ) : ℚ) = 4 := by norm_num [sampleRate]
  rw [hsr] at hD
  have h16 : 4 * sampleRate = 16 := by norm_num [sampleRate]
  rw [h16] at hD
  have hTpos : (0 : ℚ) < (T : ℚ) := by exact_mod_cast hpos
  have hT4 : (0 : ℚ) < (T : ℚ) / 4 := by positivity
  have hone : 1 ≤ calculateFrameDifference cur prev := by
    rw [hD, le_div_iff₀ hT4, one_mul, div_le_iff₀ (by norm_num : (0:ℚ) < 4)]
    exact_mod_cast (by omega : T ≤ ((4 * T + 15) / 16) * 4)
  refine ⟨hone, ?_, ?_⟩
  · rintro ⟨m, hm⟩
    have hN : (4 * T + 15) / 16 = m := by omega
    have hmq : ((m : ℕ) : ℚ) ≠ 0 := by
      have : 0 < m := by omega
      exact_mod_cast Nat.pos_iff_ne_zero.mp this
    rw [hD, hN, hm]
    push_cast
    rw [mul_comm (4 : ℚ) (m : ℚ), mul_div_assoc]
    norm_num
    exact div_self hmq
  · exact captureAndAnalyzeFrame_send cfg cur now s prev hprev ht
      (le_trans hthr hone)

/-- C5 witness: 2×2 all-white against a 2×2 all-black baseline (pixel count
4, divisible by the stride), at the default threshold and exactly at the
rate floor: change fraction 1 and a send. -/
theorem C5_all_pixels_changed_sends_witness :
    whiteFrame2x2.width = blackFrame2x2.width ∧
    whiteFrame2x2.height = blackFrame2x2.height ∧
    whiteFrame2x2.data.length = 4 * (whiteFrame2x2.width * whiteFrame2x2.height) ∧
    0 < whiteFrame2x2.width * whiteFrame2x2.height ∧
    (∀ k ∈ List.range
        ((whiteFrame2x2.data.length + 4 * sampleRate - 1) / (4 * sampleRate)),
      sampleStep whiteFrame2x2.data blackFrame2x2.data (4 * sampleRate * k) = true) ∧
    ({ midSessionState with previousFrame := some blackFrame2x2 }
        : SamplerState).previousFrame = some blackFrame2x2 ∧
    DEFAULT_CONFIG.minFrameInterval ≤ (500 : ℚ) -
      ({ midSessionState with previousFrame := some blackFrame2x2 }
        : SamplerState).lastFrameSent ∧
    DEFAULT_CONFIG.changeThreshold ≤ 1 ∧
    (1 ≤ calculateFrameDifference whiteFrame2x2 blackFrame2x2 ∧
      (4 ∣ whiteFrame2x2.width * whiteFrame2x2.height →
        calculateFrameDifference whiteFrame2x2 blackFrame2x2 = 1) ∧
      captureAndAnalyzeFrame DEFAULT_CONFIG ⟨true, true, whiteFrame2x2, 500⟩
          { midSessionState with previousFrame := some blackFrame2x2 } =
        ({ ({ midSessionState with previousFrame := some blackFrame2x2 }
              : SamplerState) with
            changeDetected := true
            frameCount := ({ midSessionState with
              previousFrame := some blackFrame2x2 } : SamplerState).frameCount + 1
            lastFrameSent := 500
            previousFrame := some whiteFrame2x2 }, true)) :=
  ⟨rfl, rfl, rfl, by decide, by decide, rfl,
    by norm_num [midSessionState, DEFAULT_CONFIG],
    by norm_num [DEFAULT_CONFIG],
    C5_all_pixels_changed_sends whiteFrame2x2 blackFrame2x2 DEFAULT_CONFIG
      { midSessionState with previousFrame := some blackFrame2x2 } 500
      rfl rfl rfl (by decide) (by decide) rfl
      (by norm_num [midSessionState, DEFAULT_CONFIG])
      (by norm_num [DEFAULT_CONFIG])⟩

end SmartVideoStream
